import Mathlib

/-!
Verification of the request/response Explainer in `for_sancho/main.py`.

The program performs one HTTP GET via the external `requests` client and
narrates the request/response lifecycle to a log.  We embed the program
shallowly: the log is a list of levelled lines, the HTTP client call is a
parameter (`HttpOutcome`) covering a returned response, a transport-level
failure, or any other exception, and Python exception flow is made explicit
(`tryBody` returns the lines logged so far, the state of the local
`response` variable, and the pending exception, and the three `except`
tiers are a total handler).
-/

namespace ForSancho

/-- Log level of one record (`logging.info` / `logging.error`). -/
inductive LogLevel where
  | info : LogLevel
  | error : LogLevel
deriving DecidableEq, Repr

/-- One timestamped log record, modulo the timestamp: level and message. -/
structure LogLine where
  level : LogLevel
  msg : String
deriving DecidableEq, Repr

/-- Embedding of `logging.info(s)`. -/
def infoLn (s : String) : LogLine := ⟨LogLevel.info, s⟩

/-- Embedding of `logging.error(s)`. -/
def errLn (s : String) : LogLine := ⟨LogLevel.error, s⟩

/-- Python string slicing `s[:n]`: the first `n` code points. -/
def pySlice (s : String) (n : Nat) : String := String.mk (s.data.take n)

/-- One entry of `response.history`: an intermediate redirect response,
of which the program reads `status_code` and `url` (main.py line 73). -/
structure HistEntry where
  status_code : Nat
  url : String
deriving DecidableEq, Repr

instance : DecidableEq (Except String String) := fun a b =>
  match a, b with
  | Except.ok x, Except.ok y =>
      if h : x = y then isTrue (by rw [h])
      else isFalse (by intro he; cases he; exact h rfl)
  | Except.ok _, Except.error _ => isFalse (by intro h; cases h)
  | Except.error _, Except.ok _ => isFalse (by intro h; cases h)
  | Except.error x, Except.error y =>
      if h : x = y then isTrue (by rw [h])
      else isFalse (by intro he; cases he; exact h rfl)

/-- The response snapshot produced by the external HTTP client, with the
fields `explain_request` reads.  `jsonResult` is the outcome of
`response.json()`: a rendering of the parsed structure, or the `ValueError`
message when the body is not valid JSON.  `elapsed`, `encoding` and
`cookies` are kept as their rendered (f-string) forms, which is all the
program uses of them. -/
structure Response where
  status_code : Nat
  url : String
  history : List HistEntry
  headers : List (String × String)
  text : String
  jsonResult : Except String String
  elapsed : String
  encoding : String
  cookies : String
  is_redirect : Bool
  is_permanent_redirect : Bool
deriving DecidableEq, Repr

/-- Outcome of the `requests.get` call (main.py line 42): a response, a
`requests.exceptions.RequestException` (transport failure), or any other
exception. -/
inductive HttpOutcome where
  | ok (r : Response) : HttpOutcome
  | transportError (msg : String) : HttpOutcome
  | otherError (msg : String) : HttpOutcome
deriving DecidableEq, Repr

/-- The exceptions that can be pending after the `try` body: the deliberate
`HTTPError` from `raise_for_status`, a `RequestException` from the client
call, or any other exception. -/
inductive PyExc where
  | httpError (msg : String) : PyExc
  | requestExc (msg : String) : PyExc
  | otherExc (msg : String) : PyExc
deriving DecidableEq, Repr

/-- Prefix test on character lists, written out. -/
def leadsWith (needle hay : List Char) : Bool :=
  match needle, hay with
  | [] , _ => true
  | _ :: _ , [] => false
  | c :: cs , d :: ds => if c == d then leadsWith cs ds else false

/-- Python `needle in hay` on strings: substring containment. -/
def hasSub (needle hay : List Char) : Bool :=
  match hay with
  | [] => leadsWith needle []
  | _ :: rest => leadsWith needle hay || hasSub needle rest

/-- Python `s in t` for strings. -/
def strIn (needle hay : String) : Bool := hasSub needle.data hay.data

/-- Python truthiness of an optional dict argument (`if headers:`):
present and non-empty. -/
def truthy : Option (List (String × String)) → Bool
  | none => false
  | some l => !l.isEmpty

/-- Rendering of a Python dict in an f-string: brace-delimited,
comma-separated quoted key/value pairs. -/
def showDict (l : List (String × String)) : String :=
  "\x7b" ++ String.intercalate ", "
    (l.map (fun p => "\x27" ++ p.1 ++ "\x27: \x27" ++ p.2 ++ "\x27"))
    ++ "\x7d"

/-- Python `key.lower()`, code point by code point. -/
def lowerStr (s : String) : String := String.mk (s.data.map Char.toLower)

/-- Lookup `response.headers.get(key)` on the case-insensitive header
dict of the HTTP client. -/
def headersGet (hs : List (String × String)) (key : String) : Option String :=
  (hs.find? (fun p => lowerStr p.1 == lowerStr key)).map Prod.snd

/-- Python rendering of a boolean in an f-string. -/
def pyBool (b : Bool) : String := if b then "True" else "False"

/-- The separator line, sixty copies of the equals sign. -/
def sepLn : LogLine :=
  infoLn (String.mk (List.replicate 60 (Char.ofNat 61)))

/-- Lines 23-38 of main.py: section header, target URL, and the optional
header / parameter dumps with the two advisory notes. -/
def requestLines (url : String)
    (params headers : Option (List (String × String))) : List LogLine :=
  [sepLn, infoLn "НАЧАЛО HTTP ЗАПРОСА", sepLn,
   infoLn ("📤 Отправляем GET запрос на: " ++ url)]
  ++ (if truthy headers then
        [infoLn ("📋 Заголовки запроса: " ++ showDict (headers.getD []))]
      else [])
  ++ (if truthy params then
        [infoLn ("🔍 Параметры запроса (query string): " ++ showDict (params.getD [])),
         infoLn "💡 ВАЖНО: Для GET запросов используем \x27params\x27, а не \x27data\x27",
         infoLn "💡 \x27params\x27 добавляет параметры в URL (?key=value)",
         infoLn "💡 \x27data\x27 используется для POST запросов (тело запроса)"]
      else [])

/-- Lines 52-62 of main.py: the advisory line(s) selected by the fixed
status-code classification (empty outside all bands). -/
def statusAdvisory (code : Nat) : List LogLine :=
  if code = 200 then
    [infoLn "💡 Статус 200: Запрос успешно выполнен (OK)"]
  else if code = 400 then
    [infoLn "⚠️  Статус 400: Неверный запрос (Bad Request)",
     infoLn "💡 Возможные причины: неправильные параметры, формат данных"]
  else if code = 404 then
    [infoLn "⚠️  Статус 404: Страница не найдена (Not Found)"]
  else if 300 ≤ code ∧ code < 400 then
    [infoLn "💡 Статус 3xx: Перенаправление (Redirect)"]
  else if 500 ≤ code then
    [infoLn "❌ Статус 5xx: Ошибка сервера (Server Error)"]
  else []

/-- Line 73 of main.py: one line per redirect-history entry, enumerated
from `i`. -/
def historyEntryLines (i : Nat) : List HistEntry → List LogLine
  | [] => []
  | e :: rest =>
      infoLn ("   " ++ toString i ++ ". " ++ toString e.status_code
        ++ " -> " ++ e.url) :: historyEntryLines (i + 1) rest

/-- Lines 70-75 of main.py: redirect-history report (count plus 1-based
enumeration) or the no-redirect note. -/
def historyLines (h : List HistEntry) : List LogLine :=
  if h.isEmpty then [infoLn "🔄 Редиректов не было"]
  else
    infoLn ("🔄 История редиректов: " ++ toString h.length ++ " перенаправлений")
      :: historyEntryLines 1 h

/-- Lines 85-95 of main.py: the content-type gate — JSON parsing with a
locally caught parse failure, or the first 500 characters of the body as
plain text. -/
def bodyLines (content_type : String) (r : Response) : List LogLine :=
  if strIn "application/json" content_type then
    infoLn "💡 Ответ в формате JSON - можно парсить" ::
      (match r.jsonResult with
       | Except.ok data => [infoLn ("📦 JSON данные: " ++ data)]
       | Except.error e => [errLn ("❌ Ошибка парсинга JSON: " ++ e)])
  else
    [infoLn "💡 Ответ НЕ в формате JSON (вероятно HTML/текст)",
     infoLn "💡 Не пытаемся парсить как JSON, чтобы избежать ошибки",
     infoLn ("📝 Текст ответа (первые 500 символов): " ++ pySlice r.text 500)]

/-- Lines 44-102 of main.py: the narration of a successfully returned
response, up to (and excluding) `raise_for_status`. -/
def responseLines (url : String) (r : Response) : List LogLine :=
  [sepLn, infoLn "ПОЛУЧЕН ОТВЕТ ОТ СЕРВЕРА", sepLn,
   infoLn ("✅ Статус код ответа: " ++ toString r.status_code)]
  ++ statusAdvisory r.status_code
  ++ [infoLn ("🌐 Финальный URL: " ++ r.url)]
  ++ (if r.url ≠ url then [infoLn "💡 URL изменился из-за редиректа"] else [])
  ++ historyLines r.history
  ++ [infoLn ("📋 Заголовки ответа: " ++ showDict r.headers)]
  ++ (let content_type := (headersGet r.headers "Content-Type").getD "не указан"
      infoLn ("📄 Тип контента: " ++ content_type) :: bodyLines content_type r)
  ++ [infoLn ("⏱️  Время выполнения запроса: " ++ r.elapsed),
      infoLn ("🔤 Кодировка ответа: " ++ r.encoding),
      infoLn ("🍪 Cookies: " ++ r.cookies),
      infoLn ("🔄 Это редирект: " ++ pyBool r.is_redirect),
      infoLn ("🔄 Это постоянный редирект: " ++ pyBool r.is_permanent_redirect)]

/-- Modelled from the spec: the external HTTP client's
`response.raise_for_status()` (main.py line 105).  Per the spec's
collaborator contract it raises a distinguishable `HTTPError` exactly
when the status code indicates a client or server error (≥ 400); the
message follows the client's `<code> Client/Server Error ... for url`
shape. -/
def raise_for_status (r : Response) : Option String :=
  if 400 ≤ r.status_code ∧ r.status_code < 500 then
    some (toString r.status_code ++ " Client Error for url: " ++ r.url)
  else if 500 ≤ r.status_code then
    some (toString r.status_code ++ " Server Error for url: " ++ r.url)
  else none

/-- State after the `try` body (lines 39-106): the lines it logged, the
local variable `response` (bound only once `requests.get` has returned),
and the pending exception, if any. -/
structure TryResult where
  lines : List LogLine
  responseVar : Option Response
  exc : Option PyExc
deriving DecidableEq, Repr

/-- Line 41 of main.py. -/
def execLine : LogLine := infoLn "⏳ Выполняем запрос..."

/-- The `try` body, lines 39-106 of main.py.  On a returned response the
whole narration runs; `raise_for_status` then either raises `HTTPError`
(suppressing the final success line) or lets the success line through. -/
def tryBody (url : String) (outcome : HttpOutcome) : TryResult :=
  match outcome with
  | HttpOutcome.transportError msg =>
      ⟨[execLine], none, some (PyExc.requestExc msg)⟩
  | HttpOutcome.otherError msg =>
      ⟨[execLine], none, some (PyExc.otherExc msg)⟩
  | HttpOutcome.ok r =>
      let lines := execLine :: responseLines url r
      match raise_for_status r with
      | some msg => ⟨lines, some r, some (PyExc.httpError msg)⟩
      | none => ⟨lines ++ [infoLn "✅ Запрос выполнен успешно!"], some r, none⟩

/-- The three `except` tiers, lines 108-115 of main.py.  The `HTTPError`
tier reads the local variable `response`; if it were unbound the read
itself would raise a `NameError`, modelled as the error branch (which
would escape the function). -/
def handleTier (responseVar : Option Response) :
    PyExc → Except String (List LogLine)
  | PyExc.httpError msg =>
      match responseVar with
      | some r =>
          Except.ok
            [errLn ("❌ HTTP ошибка: " ++ msg),
             errLn ("💡 Статус код: " ++ toString r.status_code),
             errLn ("💡 Ответ сервера: " ++ pySlice r.text 500)]
      | none => Except.error "NameError: name \x27response\x27 is not defined"
  | PyExc.requestExc msg => Except.ok [errLn ("❌ Ошибка запроса: " ++ msg)]
  | PyExc.otherExc msg => Except.ok [errLn ("❌ Неожиданная ошибка: " ++ msg)]

/-- Lines 117-119 of main.py: the closing section footer, after the
`try`/`except` block. -/
def footerLines : List LogLine :=
  [sepLn, infoLn "КОНЕЦ ОБРАБОТКИ ЗАПРОСА", sepLn]

/-- `explain_request` (main.py lines 14-119) for one outcome of the HTTP
client call.  Returns the full log of the call, or — were an exception
ever to escape the handlers — that exception's message. -/
def explain_request (url : String)
    (params headers : Option (List (String × String)))
    (outcome : HttpOutcome) : Except String (List LogLine) :=
  let pre := requestLines url params headers
  let t := tryBody url outcome
  match t.exc with
  | none => Except.ok (pre ++ t.lines ++ footerLines)
  | some e =>
      match handleTier t.responseVar e with
      | Except.ok hl => Except.ok (pre ++ t.lines ++ hl ++ footerLines)
      | Except.error ne => Except.error ne

/-- The lines actually written to the log by a call (empty in the
impossible case of an escaped exception). -/
def okLines : Except String (List LogLine) → List LogLine
  | Except.ok l => l
  | Except.error _ => []

/-- Recognizer of a status-code line of the narration: the success-path
status line (main.py line 49) or the HTTP-error tier's status line
(line 110). -/
def isStatusCodeLine (l : LogLine) : Bool :=
  leadsWith ("✅ Статус код ответа: ").data l.msg.data
  || leadsWith ("💡 Статус код: ").data l.msg.data

/-- Recognizer of a body-excerpt line of the narration: the plain-text
excerpt (main.py line 95) or the HTTP-error tier's body excerpt
(line 111). -/
def isBodyExcerptLine (l : LogLine) : Bool :=
  leadsWith ("📝 Текст ответа (первые 500 символов): ").data l.msg.data
  || leadsWith ("💡 Ответ сервера: ").data l.msg.data

/-- First hardcoded demonstration URL (main.py line 126). -/
def demoUrl1 : String := "https://dog.ceo/api/breeds/image/random"

/-- Second hardcoded demonstration URL (main.py line 138). -/
def demoUrl2 : String := "https://www.google.com/search"

/-- Hardcoded browser-spoofing header of the second call (lines 132-134). -/
def demoHeaders : List (String × String) :=
  [("User-Agent", "Mozilla/5.0 (Windows NT 10.0; Win64; x64) AppleWebKit/537.36 (KHTML, like Gecko) Chrome/120.0.0.0 Safari/537.36")]

/-- Hardcoded query parameter of the second call (lines 135-137). -/
def demoParams : List (String × String) := [("q", "python")]

/-- The banner logged before each example call (lines 123-125, 129-131). -/
def bannerLines (title : String) : List LogLine :=
  [infoLn ("\n" ++ String.mk (List.replicate 60 (Char.ofNat 61))),
   infoLn title, sepLn]

/-- The module top level (main.py lines 6-138): `logging.basicConfig`
(whose failure, e.g. a missing `logs/` directory, is not guarded by any
handler), then the two hardcoded demonstration calls.  `initResult` is
the outcome of the log-sink initialization. -/
def moduleMain (initResult : Except String Unit) (o1 o2 : HttpOutcome) :
    Except String (List LogLine) :=
  match initResult with
  | Except.error e => Except.error e
  | Except.ok _ =>
      match explain_request demoUrl1 none none o1 with
      | Except.error e => Except.error e
      | Except.ok l1 =>
          match explain_request demoUrl2 (some demoParams) (some demoHeaders) o2 with
          | Except.error e => Except.error e
          | Except.ok l2 =>
              Except.ok
                (bannerLines "ПРИМЕР 1: Запрос к API с JSON ответом" ++ l1
                  ++ bannerLines "ПРИМЕР 2: Запрос к Google с параметрами поиска" ++ l2)

/-- Process exit status: 0 when the module top level runs to completion,
1 when an exception propagates out of it (Python's behaviour for an
unhandled exception). -/
def exitCode (initResult : Except String Unit) (o1 o2 : HttpOutcome) : Nat :=
  match moduleMain initResult o1 o2 with
  | Except.ok _ => 0
  | Except.error _ => 1

/-- Sample response: status 200, JSON content type, valid JSON body, no
redirects (the spec's dog.ceo scenario). -/
def respOkJson : Response :=
  { status_code := 200
    url := "https://dog.ceo/api/breeds/image/random"
    history := []
    headers := [("Content-Type", "application/json")]
    text := "\x7b\x22status\x22:\x22success\x22\x7d"
    jsonResult := Except.ok "\x7b\x27status\x27: \x27success\x27\x7d"
    elapsed := "0:00:00.200000"
    encoding := "utf-8"
    cookies := "<RequestsCookieJar[]>"
    is_redirect := false
    is_permanent_redirect := false }

/-- Sample response: status 404 with an HTML error page. -/
def resp404 : Response :=
  { status_code := 404
    url := "https://dog.ceo/api/breeds/image/random"
    history := []
    headers := [("Content-Type", "text/html")]
    text := "<html>not found</html>"
    jsonResult := Except.error "Expecting value: line 1 column 1 (char 0)"
    elapsed := "0:00:00.100000"
    encoding := "utf-8"
    cookies := "<RequestsCookieJar[]>"
    is_redirect := false
    is_permanent_redirect := false }

/-- Sample response: a 2-entry redirect history ending at a different
final URL (the spec's redirect-reporting scenario). -/
def respRedir : Response :=
  { status_code := 200
    url := "https://example.org/final"
    history := [⟨301, "https://example.org/a"⟩, ⟨302, "https://example.org/b"⟩]
    headers := [("Content-Type", "text/html")]
    text := "<html>done</html>"
    jsonResult := Except.error "Expecting value: line 1 column 1 (char 0)"
    elapsed := "0:00:00.300000"
    encoding := "utf-8"
    cookies := "<RequestsCookieJar[]>"
    is_redirect := false
    is_permanent_redirect := false }

/-- Sample response: no redirect occurred (empty history, both redirect
booleans false) yet the final URL differs from the requested URL, as the
HTTP client produces when it appends the query string to the URL. -/
def respQuery : Response :=
  { status_code := 200
    url := "https://www.google.com/search?q=python"
    history := []
    headers := [("Content-Type", "text/html; charset=UTF-8")]
    text := "<html>results</html>"
    jsonResult := Except.error "Expecting value: line 1 column 1 (char 0)"
    elapsed := "0:00:00.150000"
    encoding := "UTF-8"
    cookies := "<RequestsCookieJar[]>"
    is_redirect := false
    is_permanent_redirect := false }

/-! ### General helper lemmas -/

theorem okLines_ok (l : List LogLine) : okLines (Except.ok l) = l := rfl

theorem leadsWith_false_of_head_ne {a b : Char} {as bs xs : List Char}
    (h : (a == b) = false) :
    leadsWith (a :: as) ((b :: bs) ++ xs) = false := by
  simp [leadsWith, h]

theorem errLn_ne_infoLn (a b : String) : errLn a ≠ infoLn b := by
  simp [errLn, infoLn]

theorem infoLn_append_ne (pre x t : String)
    (hne : pre.data.head? ≠ t.data.head?) (hpre : pre.data ≠ []) :
    infoLn (pre ++ x) ≠ infoLn t := by
  intro h
  have hmsg : pre ++ x = t := by
    have := congrArg LogLine.msg h
    simpa [infoLn] using this
  have hd : (pre.data ++ x.data).head? = t.data.head? := by
    have h2 := congrArg String.data hmsg
    rw [show (pre ++ x).data = pre.data ++ x.data from rfl] at h2
    rw [h2]
  cases hp : pre.data with
  | nil => exact hpre hp
  | cons c cs => rw [hp] at hd; exact hne (by rw [hp]; simpa using hd)

/-! ### Log-shape lemmas -/

/-- Shape of the log when the response is returned and `raise_for_status`
does not raise. -/
theorem log_shape_success (url : String)
    (params headers : Option (List (String × String))) (r : Response)
    (hr : raise_for_status r = none) :
    explain_request url params headers (HttpOutcome.ok r)
      = Except.ok (requestLines url params headers
          ++ ((execLine :: responseLines url r)
              ++ [infoLn "✅ Запрос выполнен успешно!"])
          ++ footerLines) := by
  simp only [explain_request, tryBody, hr]

/-- Shape of the log when the response is returned and `raise_for_status`
raises the deliberate `HTTPError`. -/
theorem log_shape_httpError (url : String)
    (params headers : Option (List (String × String))) (r : Response)
    (m : String) (hr : raise_for_status r = some m) :
    explain_request url params headers (HttpOutcome.ok r)
      = Except.ok (requestLines url params headers
          ++ (execLine :: responseLines url r)
          ++ [errLn ("❌ HTTP ошибка: " ++ m),
              errLn ("💡 Статус код: " ++ toString r.status_code),
              errLn ("💡 Ответ сервера: " ++ pySlice r.text 500)]
          ++ footerLines) := by
  simp only [explain_request, tryBody, hr, handleTier]

/-- Shape of the log on a transport-level failure. -/
theorem log_shape_transport (url : String)
    (params headers : Option (List (String × String))) (m : String) :
    explain_request url params headers (HttpOutcome.transportError m)
      = Except.ok (requestLines url params headers
          ++ [execLine]
          ++ [errLn ("❌ Ошибка запроса: " ++ m)]
          ++ footerLines) := rfl

/-- Shape of the log on any other exception from the client call. -/
theorem log_shape_other (url : String)
    (params headers : Option (List (String × String))) (m : String) :
    explain_request url params headers (HttpOutcome.otherError m)
      = Except.ok (requestLines url params headers
          ++ [execLine]
          ++ [errLn ("❌ Неожиданная ошибка: " ++ m)]
          ++ footerLines) := rfl

/-- The call always returns its log (no exception escapes the tiers). -/
theorem explain_request_isOk (url : String)
    (params headers : Option (List (String × String))) (o : HttpOutcome) :
    ∃ lines, explain_request url params headers o = Except.ok lines := by
  cases o with
  | ok r =>
      cases hr : raise_for_status r with
      | none => exact ⟨_, log_shape_success url params headers r hr⟩
      | some m => exact ⟨_, log_shape_httpError url params headers r m hr⟩
  | transportError m => exact ⟨_, rfl⟩
  | otherError m => exact ⟨_, rfl⟩

/-- A line of the success-path narration is in the final log, whether or
not `raise_for_status` raises afterwards. -/
theorem mem_responseLines_mem_log (url : String)
    (params headers : Option (List (String × String))) (r : Response)
    (l : LogLine) (hl : l ∈ responseLines url r) :
    l ∈ okLines (explain_request url params headers (HttpOutcome.ok r)) := by
  cases hr : raise_for_status r with
  | none =>
      rw [log_shape_success url params headers r hr, okLines_ok]
      simp [List.mem_append, hl]
  | some m =>
      rw [log_shape_httpError url params headers r m hr, okLines_ok]
      simp [List.mem_append, hl]

/-- The advisory lines of the status classification are part of the
success-path narration. -/
theorem mem_statusAdvisory_mem_responseLines (url : String) (r : Response)
    (l : LogLine) (hl : l ∈ statusAdvisory r.status_code) :
    l ∈ responseLines url r := by
  simp [responseLines, List.mem_append, hl]

/-- The redirect-history lines are part of the success-path narration. -/
theorem mem_historyLines_mem_responseLines (url : String) (r : Response)
    (l : LogLine) (hl : l ∈ historyLines r.history) :
    l ∈ responseLines url r := by
  simp [responseLines, List.mem_append, hl]

/-- The content-type-gated body lines are part of the success-path
narration. -/
theorem mem_bodyLines_mem_responseLines (url : String) (r : Response)
    (l : LogLine)
    (hl : l ∈ bodyLines ((headersGet r.headers "Content-Type").getD "не указан") r) :
    l ∈ responseLines url r := by
  simp [responseLines, List.mem_append, hl]

/-! ### Claim theorems -/

/-- C1: for every input and every outcome of the HTTP client call
(success, HTTP status error, transport failure, or any other exception),
`explain_request` returns normally to its caller, and the closing
"end request" footer is a suffix of the log in every execution path. -/
theorem c1_never_raises_footer_always (url : String)
    (params headers : Option (List (String × String))) (o : HttpOutcome) :
    (∃ lines, explain_request url params headers o = Except.ok lines) ∧
    footerLines <:+ okLines (explain_request url params headers o) := by
  refine ⟨explain_request_isOk url params headers o, ?_⟩
  cases o with
  | ok r =>
      cases hr : raise_for_status r with
      | none => rw [log_shape_success url params headers r hr]; exact ⟨_, rfl⟩
      | some m => rw [log_shape_httpError url params headers r m hr]; exact ⟨_, rfl⟩
  | transportError m => exact ⟨_, rfl⟩
  | otherError m => exact ⟨_, rfl⟩

/-- C9: calling `explain_request` twice with identical inputs against the
same deterministic transport outcome produces identical log narrations
(the model abstracts the timestamps away). -/
theorem c9_two_run_determinism (url : String)
    (params headers : Option (List (String × String))) (o : HttpOutcome)
    (log1 log2 : List LogLine)
    (h1 : explain_request url params headers o = Except.ok log1)
    (h2 : explain_request url params headers o = Except.ok log2) :
    log1 = log2 := by
  have h := h1.symm.trans h2
  injection h

/-- Witness for C9 at the dog.ceo scenario response. -/
theorem c9_two_run_determinism_witness :
    okLines (explain_request demoUrl1 none none (HttpOutcome.ok respOkJson))
      = okLines (explain_request demoUrl1 none none (HttpOutcome.ok respOkJson)) :=
  c9_two_run_determinism demoUrl1 none none (HttpOutcome.ok respOkJson) _ _ rfl rfl

/-- C10: whenever the HTTP-error tier runs, the local `response` variable
is bound (the `HTTPError` can only come from `raise_for_status`, which
runs after `requests.get` returned), so the handler never fails with an
unbound-variable error and the call never propagates one. -/
theorem c10_handler_response_bound (url : String)
    (params headers : Option (List (String × String))) (o : HttpOutcome) :
    (∀ m, (tryBody url o).exc = some (PyExc.httpError m) →
        ∃ r, (tryBody url o).responseVar = some r) ∧
    (∀ e, explain_request url params headers o ≠ Except.error e) := by
  constructor
  · intro m hm
    cases o with
    | ok r =>
        refine ⟨r, ?_⟩
        cases hr : raise_for_status r with
        | none => simp [tryBody, hr]
        | some m2 => simp [tryBody, hr]
    | transportError m2 => simp [tryBody] at hm
    | otherError m2 => simp [tryBody] at hm
  · intro e he
    obtain ⟨lines, hl⟩ := explain_request_isOk url params headers o
    rw [hl] at he
    exact Except.noConfusion he

/-- Witness for C10: a 404 response makes the HTTP-error tier run with
the response variable bound. -/
theorem c10_handler_response_bound_witness :
    ∃ r, (tryBody demoUrl1 (HttpOutcome.ok resp404)).responseVar = some r :=
  (c10_handler_response_bound demoUrl1 none none (HttpOutcome.ok resp404)).1
    ("404 Client Error for url: " ++ resp404.url) (by decide)

/-- C2: for a response with status ≥ 400 the raise-if-error check raises
the `HTTPError`, which is caught internally; the log then carries the
error message, the status code, and a body excerpt of at most 500
characters, and the call still returns normally.  For status < 400
nothing is raised and the final success confirmation is logged
instead. -/
theorem c2_http_error_logging (url : String)
    (params headers : Option (List (String × String))) (r : Response) :
    (400 ≤ r.status_code →
       ∃ m, raise_for_status r = some m ∧
         (tryBody url (HttpOutcome.ok r)).exc = some (PyExc.httpError m) ∧
         errLn ("❌ HTTP ошибка: " ++ m)
            ∈ okLines (explain_request url params headers (HttpOutcome.ok r)) ∧
         errLn ("💡 Статус код: " ++ toString r.status_code)
            ∈ okLines (explain_request url params headers (HttpOutcome.ok r)) ∧
         errLn ("💡 Ответ сервера: " ++ pySlice r.text 500)
            ∈ okLines (explain_request url params headers (HttpOutcome.ok r)) ∧
         (pySlice r.text 500).length ≤ 500 ∧
         ∃ lines, explain_request url params headers (HttpOutcome.ok r)
            = Except.ok lines) ∧
    (r.status_code < 400 →
       raise_for_status r = none ∧
       (tryBody url (HttpOutcome.ok r)).exc = none ∧
       infoLn "✅ Запрос выполнен успешно!"
          ∈ okLines (explain_request url params headers (HttpOutcome.ok r))) := by
  constructor
  · intro h400
    have hm : ∃ m, raise_for_status r = some m := by
      by_cases h5 : r.status_code < 500
      · exact ⟨_, by unfold raise_for_status; rw [if_pos ⟨h400, h5⟩]⟩
      · exact ⟨_, by unfold raise_for_status; rw [if_neg (by omega), if_pos (by omega)]⟩
    obtain ⟨m, hm⟩ := hm
    refine ⟨m, hm, by simp [tryBody, hm], ?_, ?_, ?_, ?_,
      explain_request_isOk url params headers (HttpOutcome.ok r)⟩
    · rw [log_shape_httpError url params headers r m hm, okLines_ok]
      simp
    · rw [log_shape_httpError url params headers r m hm, okLines_ok]
      simp
    · rw [log_shape_httpError url params headers r m hm, okLines_ok]
      simp
    · show (String.mk (r.text.data.take 500)).length ≤ 500
      show (r.text.data.take 500).length ≤ 500
      rw [List.length_take]
      exact Nat.min_le_left _ _
  · intro hlt
    have hr : raise_for_status r = none := by
      unfold raise_for_status
      rw [if_neg (by omega), if_neg (by omega)]
    refine ⟨hr, by simp [tryBody, hr], ?_⟩
    rw [log_shape_success url params headers r hr, okLines_ok]
    simp

/-- Witness for C2 at a concrete 404 response. -/
theorem c2_http_error_logging_witness :
    errLn ("💡 Статус код: " ++ toString resp404.status_code)
      ∈ okLines (explain_request demoUrl1 none none (HttpOutcome.ok resp404)) := by
  obtain ⟨m, hm, he, h1, h2, h3, h4, h5⟩ :=
    (c2_http_error_logging demoUrl1 none none resp404).1 (by decide)
  exact h2

/-- C3: the content-type gate.  When the content type (defaulting to the
placeholder when the header is absent) contains "application/json" the
body is parsed and the structure (or a parse-error line that does not
abort the remaining narration) is logged; otherwise no JSON parsing is
attempted and the first 500 characters of the body are logged as plain
text; an absent content-type header routes to the plain-text branch. -/
theorem c3_content_type_gate (url : String)
    (params headers : Option (List (String × String))) (r : Response) :
    (∀ d, strIn "application/json"
            ((headersGet r.headers "Content-Type").getD "не указан") = true →
        r.jsonResult = Except.ok d →
        bodyLines ((headersGet r.headers "Content-Type").getD "не указан") r
          = [infoLn "💡 Ответ в формате JSON - можно парсить",
             infoLn ("📦 JSON данные: " ++ d)] ∧
        infoLn ("📦 JSON данные: " ++ d)
          ∈ okLines (explain_request url params headers (HttpOutcome.ok r))) ∧
    (∀ e, strIn "application/json"
            ((headersGet r.headers "Content-Type").getD "не указан") = true →
        r.jsonResult = Except.error e →
        bodyLines ((headersGet r.headers "Content-Type").getD "не указан") r
          = [infoLn "💡 Ответ в формате JSON - можно парсить",
             errLn ("❌ Ошибка парсинга JSON: " ++ e)] ∧
        errLn ("❌ Ошибка парсинга JSON: " ++ e)
          ∈ okLines (explain_request url params headers (HttpOutcome.ok r)) ∧
        infoLn ("⏱️  Время выполнения запроса: " ++ r.elapsed)
          ∈ okLines (explain_request url params headers (HttpOutcome.ok r))) ∧
    (strIn "application/json"
        ((headersGet r.headers "Content-Type").getD "не указан") = false →
        bodyLines ((headersGet r.headers "Content-Type").getD "не указан") r
          = [infoLn "💡 Ответ НЕ в формате JSON (вероятно HTML/текст)",
             infoLn "💡 Не пытаемся парсить как JSON, чтобы избежать ошибки",
             infoLn ("📝 Текст ответа (первые 500 символов): " ++ pySlice r.text 500)] ∧
        infoLn ("📝 Текст ответа (первые 500 символов): " ++ pySlice r.text 500)
          ∈ okLines (explain_request url params headers (HttpOutcome.ok r))) ∧
    (headersGet r.headers "Content-Type" = none →
        (headersGet r.headers "Content-Type").getD "не указан" = "не указан" ∧
        strIn "application/json" "не указан" = false ∧
        infoLn ("📄 Тип контента: "
            ++ (headersGet r.headers "Content-Type").getD "не указан")
          ∈ okLines (explain_request url params headers (HttpOutcome.ok r)) ∧
        infoLn ("📝 Текст ответа (первые 500 символов): " ++ pySlice r.text 500)
          ∈ okLines (explain_request url params headers (HttpOutcome.ok r))) := by
  have hct : infoLn ("📄 Тип контента: "
        ++ (headersGet r.headers "Content-Type").getD "не указан")
      ∈ responseLines url r := by
    simp [responseLines, List.mem_append]
  refine ⟨?_, ?_, ?_, ?_⟩
  · intro d hin hj
    have hb : bodyLines ((headersGet r.headers "Content-Type").getD "не указан") r
        = [infoLn "💡 Ответ в формате JSON - можно парсить",
           infoLn ("📦 JSON данные: " ++ d)] := by
      simp [bodyLines, hin, hj]
    refine ⟨hb, mem_responseLines_mem_log url params headers r _
      (mem_bodyLines_mem_responseLines url r _ ?_)⟩
    rw [hb]; simp
  · intro e hin hj
    have hb : bodyLines ((headersGet r.headers "Content-Type").getD "не указан") r
        = [infoLn "💡 Ответ в формате JSON - можно парсить",
           errLn ("❌ Ошибка парсинга JSON: " ++ e)] := by
      simp [bodyLines, hin, hj]
    refine ⟨hb, mem_responseLines_mem_log url params headers r _
      (mem_bodyLines_mem_responseLines url r _ ?_), ?_⟩
    · rw [hb]; simp
    · refine mem_responseLines_mem_log url params headers r _ ?_
      simp [responseLines, List.mem_append]
  · intro hin
    have hb : bodyLines ((headersGet r.headers "Content-Type").getD "не указан") r
        = [infoLn "💡 Ответ НЕ в формате JSON (вероятно HTML/текст)",
           infoLn "💡 Не пытаемся парсить как JSON, чтобы избежать ошибки",
           infoLn ("📝 Текст ответа (первые 500 символов): " ++ pySlice r.text 500)] := by
      simp [bodyLines, hin]
    refine ⟨hb, mem_responseLines_mem_log url params headers r _
      (mem_bodyLines_mem_responseLines url r _ ?_)⟩
    rw [hb]; simp
  · intro hnone
    have hd : (headersGet r.headers "Content-Type").getD "не указан" = "не указан" := by
      rw [hnone]; rfl
    have hin : strIn "application/json"
        ((headersGet r.headers "Content-Type").getD "не указан") = false := by
      rw [hd]; decide
    have hb : bodyLines ((headersGet r.headers "Content-Type").getD "не указан") r
        = [infoLn "💡 Ответ НЕ в формате JSON (вероятно HTML/текст)",
           infoLn "💡 Не пытаемся парсить как JSON, чтобы избежать ошибки",
           infoLn ("📝 Текст ответа (первые 500 символов): " ++ pySlice r.text 500)] := by
      simp [bodyLines, hin]
    refine ⟨hd, by rw [hd] at hin; exact hin,
      mem_responseLines_mem_log url params headers r _ hct,
      mem_responseLines_mem_log url params headers r _
        (mem_bodyLines_mem_responseLines url r _ ?_)⟩
    rw [hb]; simp

/-- Witness for C3 at the dog.ceo JSON scenario. -/
theorem c3_content_type_gate_witness :
    infoLn ("📦 JSON данные: " ++ "\x7b\x27status\x27: \x27success\x27\x7d")
      ∈ okLines (explain_request demoUrl1 none none (HttpOutcome.ok respOkJson)) := by
  obtain ⟨hb, hm⟩ :=
    (c3_content_type_gate demoUrl1 none none respOkJson).1
      "\x7b\x27status\x27: \x27success\x27\x7d" (by decide) (by decide)
  exact hm

/-- C4: the fixed status-code classification of the advisory lines —
200, 400 (with the extra malformed-params note), 404, the [300,400)
band, the ≥500 band, and no advisory at all outside these bands — and
the advisory lines appear in the log next to the bare status-code
line. -/
theorem c4_status_advisory (code : Nat) :
    (code = 200 → statusAdvisory code
        = [infoLn "💡 Статус 200: Запрос успешно выполнен (OK)"]) ∧
    (code = 400 → statusAdvisory code
        = [infoLn "⚠️  Статус 400: Неверный запрос (Bad Request)",
           infoLn "💡 Возможные причины: неправильные параметры, формат данных"]) ∧
    (code = 404 → statusAdvisory code
        = [infoLn "⚠️  Статус 404: Страница не найдена (Not Found)"]) ∧
    (300 ≤ code → code < 400 → statusAdvisory code
        = [infoLn "💡 Статус 3xx: Перенаправление (Redirect)"]) ∧
    (500 ≤ code → statusAdvisory code
        = [infoLn "❌ Статус 5xx: Ошибка сервера (Server Error)"]) ∧
    (code ≠ 200 → code ≠ 400 → code ≠ 404 → ¬(300 ≤ code ∧ code < 400) →
        code < 500 → statusAdvisory code = []) ∧
    (∀ (url : String) (params headers : Option (List (String × String)))
        (r : Response), r.status_code = code →
        infoLn ("✅ Статус код ответа: " ++ toString code)
          ∈ okLines (explain_request url params headers (HttpOutcome.ok r)) ∧
        ∀ l ∈ statusAdvisory code,
          l ∈ okLines (explain_request url params headers (HttpOutcome.ok r))) := by
  refine ⟨?_, ?_, ?_, ?_, ?_, ?_, ?_⟩
  · intro h; subst h; rfl
  · intro h; subst h; rfl
  · intro h; subst h; rfl
  · intro h3 h4
    unfold statusAdvisory
    rw [if_neg (by omega), if_neg (by omega), if_neg (by omega), if_pos ⟨h3, h4⟩]
  · intro h5
    unfold statusAdvisory
    rw [if_neg (by omega), if_neg (by omega), if_neg (by omega),
      if_neg (by omega), if_pos h5]
  · intro h1 h2 h3 h4 h5
    unfold statusAdvisory
    rw [if_neg h1, if_neg h2, if_neg h3, if_neg h4, if_neg (by omega)]
  · intro url params headers r hc
    subst hc
    constructor
    · refine mem_responseLines_mem_log url params headers r _ ?_
      simp [responseLines, List.mem_append]
    · intro l hl
      exact mem_responseLines_mem_log url params headers r _
        (mem_statusAdvisory_mem_responseLines url r _ hl)

/-- Witness for C4 at code 418, outside every advisory band. -/
theorem c4_status_advisory_witness : statusAdvisory 418 = [] :=
  (c4_status_advisory 418).2.2.2.2.2.1 (by decide) (by decide) (by decide)
    (by decide) (by decide)

/-- Enumerated history lines: one line per entry. -/
theorem historyEntryLines_length (start : Nat) (hs : List HistEntry) :
    (historyEntryLines start hs).length = hs.length := by
  induction hs generalizing start with
  | nil => rfl
  | cons e rest ih => simp [historyEntryLines, ih]

/-- Enumerated history lines: the line at position `i` narrates the
`i`-th entry with the 1-based counter `start + i`. -/
theorem historyEntryLines_get (start : Nat) (hs : List HistEntry) (i : Nat)
    (hi : i < hs.length) :
    (historyEntryLines start hs)[i]?
      = some (infoLn ("   " ++ toString (start + i) ++ ". "
          ++ toString (hs.get ⟨i, hi⟩).status_code ++ " -> "
          ++ (hs.get ⟨i, hi⟩).url)) := by
  induction hs generalizing start i with
  | nil => exact absurd hi (Nat.not_lt_zero i)
  | cons e rest ih =>
      cases i with
      | zero => simp [historyEntryLines]
      | succ j =>
          have hj : j < rest.length := Nat.lt_of_succ_lt_succ hi
          have harith : start + (j + 1) = (start + 1) + j := by omega

          simp only [historyEntryLines, List.getElem?_cons_succ, List.get_cons_succ,
            harith]
          exact ih (start + 1) j hj

/-- C5: for a non-empty redirect history of `n` entries the log reports
the count `n` and then one line per entry with its 1-based position,
status code and URL, in traversal order; for an empty history the log
states that no redirect occurred. -/
theorem c5_redirect_history (url : String)
    (params headers : Option (List (String × String))) (r : Response) :
    (r.history = [] →
        historyLines r.history = [infoLn "🔄 Редиректов не было"] ∧
        infoLn "🔄 Редиректов не было"
          ∈ okLines (explain_request url params headers (HttpOutcome.ok r))) ∧
    (r.history ≠ [] →
        historyLines r.history
          = infoLn ("🔄 История редиректов: " ++ toString r.history.length
              ++ " перенаправлений") :: historyEntryLines 1 r.history ∧
        infoLn ("🔄 История редиректов: " ++ toString r.history.length
            ++ " перенаправлений")
          ∈ okLines (explain_request url params headers (HttpOutcome.ok r)) ∧
        (historyEntryLines 1 r.history).length = r.history.length ∧
        (∀ i (hi : i < r.history.length),
            (historyEntryLines 1 r.history)[i]?
              = some (infoLn ("   " ++ toString (i + 1) ++ ". "
                  ++ toString (r.history.get ⟨i, hi⟩).status_code ++ " -> "
                  ++ (r.history.get ⟨i, hi⟩).url))) ∧
        (∀ l ∈ historyEntryLines 1 r.history,
            l ∈ okLines (explain_request url params headers (HttpOutcome.ok r)))) := by
  constructor
  · intro h0
    have hh : historyLines r.history = [infoLn "🔄 Редиректов не было"] := by
      rw [h0]; rfl
    refine ⟨hh, mem_responseLines_mem_log url params headers r _
      (mem_historyLines_mem_responseLines url r _ ?_)⟩
    rw [hh]; simp
  · intro hne
    have hh : historyLines r.history
        = infoLn ("🔄 История редиректов: " ++ toString r.history.length
            ++ " перенаправлений") :: historyEntryLines 1 r.history := by
      unfold historyLines
      rw [if_neg (by simpa [List.isEmpty_iff] using hne)]
    refine ⟨hh, mem_responseLines_mem_log url params headers r _
      (mem_historyLines_mem_responseLines url r _ ?_), historyEntryLines_length 1 r.history,
      ?_, ?_⟩
    · rw [hh]; simp
    · intro i hi
      have := historyEntryLines_get 1 r.history i hi
      rwa [Nat.add_comm 1 i] at this
    · intro l hl
      refine mem_responseLines_mem_log url params headers r _
        (mem_historyLines_mem_responseLines url r _ ?_)
      rw [hh]
      exact List.mem_cons_of_mem _ hl

/-- Witness for C5 at the 2-entry redirect scenario. -/
theorem c5_redirect_history_witness :
    infoLn ("🔄 История редиректов: " ++ toString respRedir.history.length
        ++ " перенаправлений")
      ∈ okLines (explain_request demoUrl2 none none (HttpOutcome.ok respRedir)) := by
  obtain ⟨hh, hm, hlen, hget, hall⟩ :=
    (c5_redirect_history demoUrl2 none none respRedir).2 (by decide)
  exact hm

/-- No pre-request line is a status-code line or a body-excerpt line. -/
theorem requestLines_clean (url : String)
    (params headers : Option (List (String × String))) :
    ∀ l ∈ requestLines url params headers,
      isStatusCodeLine l = false ∧ isBodyExcerptLine l = false := by
  intro l hl
  rw [requestLines] at hl
  rcases List.mem_append.mp hl with h | h
  · rcases List.mem_append.mp h with h2 | h2
    · simp only [List.mem_cons, List.not_mem_nil, or_false] at h2
      rcases h2 with rfl | rfl | rfl | rfl
      · decide
      · decide
      · decide
      · constructor <;> exact Bool.or_eq_false_iff.mpr
          ⟨leadsWith_false_of_head_ne (by decide),
           leadsWith_false_of_head_ne (by decide)⟩
    · by_cases hh : truthy headers
      · rw [if_pos hh, List.mem_singleton] at h2
        subst h2
        constructor <;> exact Bool.or_eq_false_iff.mpr
          ⟨leadsWith_false_of_head_ne (by decide),
           leadsWith_false_of_head_ne (by decide)⟩
      · rw [if_neg hh] at h2
        exact absurd h2 (List.not_mem_nil l)
  · by_cases hp : truthy params
    · rw [if_pos hp] at h
      simp only [List.mem_cons, List.not_mem_nil, or_false] at h
      rcases h with rfl | rfl | rfl | rfl
      · constructor <;> exact Bool.or_eq_false_iff.mpr
          ⟨leadsWith_false_of_head_ne (by decide),
           leadsWith_false_of_head_ne (by decide)⟩
      · decide
      · decide
      · decide
    · rw [if_neg hp] at h
      exact absurd h (List.not_mem_nil l)

/-- C6: on a transport-level failure (no response object exists) the log
carries the transport-error line with the message, and no line of the
log is a status-code line or a body-excerpt line. -/
theorem c6_transport_failure (url : String)
    (params headers : Option (List (String × String))) (m : String) :
    errLn ("❌ Ошибка запроса: " ++ m)
        ∈ okLines (explain_request url params headers (HttpOutcome.transportError m)) ∧
    ∀ l ∈ okLines (explain_request url params headers (HttpOutcome.transportError m)),
        isStatusCodeLine l = false ∧ isBodyExcerptLine l = false := by
  rw [log_shape_transport url params headers m, okLines_ok]
  constructor
  · simp
  · intro l hl
    rcases List.mem_append.mp hl with h | h
    · rcases List.mem_append.mp h with h2 | h2
      · rcases List.mem_append.mp h2 with h3 | h3
        · exact requestLines_clean url params headers l h3
        · rw [List.mem_singleton] at h3; subst h3; decide
      · rw [List.mem_singleton] at h2; subst h2
        constructor <;> exact Bool.or_eq_false_iff.mpr
          ⟨leadsWith_false_of_head_ne (by decide),
           leadsWith_false_of_head_ne (by decide)⟩
    · rw [footerLines] at h
      simp only [List.mem_cons, List.not_mem_nil, or_false] at h
      rcases h with rfl | rfl | rfl
      · decide
      · decide
      · decide

/-- Witness for C6 at a DNS-style failure message. -/
theorem c6_transport_failure_witness :
    isStatusCodeLine (errLn ("❌ Ошибка запроса: " ++ "getaddrinfo failed")) = false ∧
    isBodyExcerptLine (errLn ("❌ Ошибка запроса: " ++ "getaddrinfo failed")) = false := by
  refine (c6_transport_failure demoUrl1 none none "getaddrinfo failed").2 _ ?_
  exact (c6_transport_failure demoUrl1 none none "getaddrinfo failed").1

/-- Two info lines with distinct leading characters differ. -/
theorem infoLn_ne_heads {s t : String} {c d : Char}
    (hs : s.data.head? = some c) (ht : t.data.head? = some d)
    (hcd : (c == d) = false) : infoLn s ≠ infoLn t := by
  intro he
  have hst : s = t := by simpa [infoLn] using congrArg LogLine.msg he
  rw [hst, ht] at hs
  have hcd2 : c = d := by simpa using hs.symm
  rw [hcd2] at hcd
  simp at hcd

/-- The URL-changed note is not an advisory line of any status code. -/
theorem note_not_mem_statusAdvisory (c : Nat) :
    infoLn "💡 URL изменился из-за редиректа" ∉ statusAdvisory c := by
  unfold statusAdvisory
  split
  · decide
  · split
    · decide
    · split
      · decide
      · split
        · decide
        · split
          · decide
          · decide

/-- The URL-changed note is not an enumerated history line. -/
theorem note_not_mem_historyEntryLines (start : Nat) (hs : List HistEntry) :
    infoLn "💡 URL изменился из-за редиректа" ∉ historyEntryLines start hs := by
  induction hs generalizing start with
  | nil => exact List.not_mem_nil _
  | cons e rest ih =>
      intro h
      rw [historyEntryLines, List.mem_cons] at h
      rcases h with h | h
      · exact absurd h (Ne.symm (infoLn_ne_heads rfl rfl (by decide)))
      · exact ih (start + 1) h

/-- The URL-changed note is not a history-report line. -/
theorem note_not_mem_historyLines (hs : List HistEntry) :
    infoLn "💡 URL изменился из-за редиректа" ∉ historyLines hs := by
  unfold historyLines
  split
  · decide
  · intro h
    rw [List.mem_cons] at h
    rcases h with h | h
    · exact absurd h (Ne.symm (infoLn_ne_heads rfl rfl (by decide)))
    · exact note_not_mem_historyEntryLines 1 hs h

/-- The URL-changed note is not a body-handling line. -/
theorem note_not_mem_bodyLines (ct : String) (r : Response) :
    infoLn "💡 URL изменился из-за редиректа" ∉ bodyLines ct r := by
  unfold bodyLines
  split
  · intro h
    rw [List.mem_cons] at h
    rcases h with h | h
    · exact absurd h (by decide)
    · cases hj : r.jsonResult with
      | ok d =>
          rw [hj] at h
          rw [List.mem_singleton] at h
          exact absurd h (Ne.symm (infoLn_ne_heads rfl rfl (by decide)))
      | error e =>
          rw [hj] at h
          rw [List.mem_singleton] at h
          exact absurd h.symm (errLn_ne_infoLn _ _)
  · intro h
    simp only [List.mem_cons, List.not_mem_nil, or_false] at h
    rcases h with h | h | h
    · exact absurd h (by decide)
    · exact absurd h (by decide)
    · exact absurd h (Ne.symm (infoLn_ne_heads rfl rfl (by decide)))

/-- The URL-changed note is not a pre-request line. -/
theorem note_not_mem_requestLines (url : String)
    (params headers : Option (List (String × String))) :
    infoLn "💡 URL изменился из-за редиректа" ∉ requestLines url params headers := by
  intro h
  rw [requestLines] at h
  rcases List.mem_append.mp h with h | h
  · rcases List.mem_append.mp h with h2 | h2
    · simp only [List.mem_cons, List.not_mem_nil, or_false] at h2
      rcases h2 with h2 | h2 | h2 | h2
      · exact absurd h2 (by decide)
      · exact absurd h2 (by decide)
      · exact absurd h2 (by decide)
      · exact absurd h2 (Ne.symm (infoLn_ne_heads rfl rfl (by decide)))
    · by_cases hh : truthy headers
      · rw [if_pos hh, List.mem_singleton] at h2
        exact absurd h2 (Ne.symm (infoLn_ne_heads rfl rfl (by decide)))
      · rw [if_neg hh] at h2
        exact absurd h2 (List.not_mem_nil _)
  · by_cases hp : truthy params
    · rw [if_pos hp] at h
      simp only [List.mem_cons, List.not_mem_nil, or_false] at h
      rcases h with h | h | h | h
      · exact absurd h (Ne.symm (infoLn_ne_heads rfl rfl (by decide)))
      · exact absurd h (by decide)
      · exact absurd h (by decide)
      · exact absurd h (by decide)
    · rw [if_neg hp] at h
      exact absurd h (List.not_mem_nil _)

/-- When the final URL equals the requested URL the note is not part of
the success-path narration. -/
theorem note_not_mem_responseLines (url : String) (r : Response)
    (hurl : r.url = url) :
    infoLn "💡 URL изменился из-за редиректа" ∉ responseLines url r := by
  intro h
  simp only [responseLines] at h
  rcases List.mem_append.mp h with h | h
  swap
  · simp only [List.mem_cons, List.not_mem_nil, or_false] at h
    rcases h with h | h | h | h | h
    · exact absurd h (Ne.symm (infoLn_ne_heads rfl rfl (by decide)))
    · exact absurd h (Ne.symm (infoLn_ne_heads rfl rfl (by decide)))
    · exact absurd h (Ne.symm (infoLn_ne_heads rfl rfl (by decide)))
    · exact absurd h (Ne.symm (infoLn_ne_heads rfl rfl (by decide)))
    · exact absurd h (Ne.symm (infoLn_ne_heads rfl rfl (by decide)))
  rcases List.mem_append.mp h with h | h
  swap
  · rw [List.mem_cons] at h
    rcases h with h | h
    · exact absurd h (Ne.symm (infoLn_ne_heads rfl rfl (by decide)))
    · exact note_not_mem_bodyLines _ r h
  rcases List.mem_append.mp h with h | h
  swap
  · rw [List.mem_singleton] at h
    exact absurd h (Ne.symm (infoLn_ne_heads rfl rfl (by decide)))
  rcases List.mem_append.mp h with h | h
  swap
  · exact note_not_mem_historyLines r.history h
  rcases List.mem_append.mp h with h | h
  swap
  · rw [if_neg (fun hx => hx hurl)] at h
    exact absurd h (List.not_mem_nil _)
  rcases List.mem_append.mp h with h | h
  swap
  · rw [List.mem_singleton] at h
    exact absurd h (Ne.symm (infoLn_ne_heads rfl rfl (by decide)))
  rcases List.mem_append.mp h with h | h
  · simp only [List.mem_cons, List.not_mem_nil, or_false] at h
    rcases h with h | h | h | h
    · exact absurd h (by decide)
    · exact absurd h (by decide)
    · exact absurd h (by decide)
    · exact absurd h (Ne.symm (infoLn_ne_heads rfl rfl (by decide)))
  · exact note_not_mem_statusAdvisory r.status_code h

/-- C7 (amended): the final URL is logged, and the URL-changed note is
logged if and only if the response's final URL differs from the
requested URL string; that difference need not come from a redirect,
since the client also rewrites the URL when encoding query
parameters. -/
theorem c7_url_change_note (url : String)
    (params headers : Option (List (String × String))) (r : Response) :
    infoLn ("🌐 Финальный URL: " ++ r.url)
        ∈ okLines (explain_request url params headers (HttpOutcome.ok r)) ∧
    (infoLn "💡 URL изменился из-за редиректа"
        ∈ okLines (explain_request url params headers (HttpOutcome.ok r))
      ↔ r.url ≠ url) := by
  constructor
  · refine mem_responseLines_mem_log url params headers r _ ?_
    simp [responseLines, List.mem_append]
  · constructor
    · intro hmem
      by_contra hurl
      have hresp := note_not_mem_responseLines url r hurl
      have hpre := note_not_mem_requestLines url params headers
      cases hr : raise_for_status r with
      | none =>
          rw [log_shape_success url params headers r hr, okLines_ok] at hmem
          rcases List.mem_append.mp hmem with h | h
          · rcases List.mem_append.mp h with h2 | h2
            · exact hpre h2
            · rcases List.mem_append.mp h2 with h3 | h3
              · rw [List.mem_cons] at h3
                rcases h3 with h3 | h3
                · exact absurd h3 (by decide)
                · exact hresp h3
              · rw [List.mem_singleton] at h3
                exact absurd h3 (by decide)
          · revert h; decide
      | some m =>
          rw [log_shape_httpError url params headers r m hr, okLines_ok] at hmem
          rcases List.mem_append.mp hmem with h | h
          swap
          · revert h; decide
          rcases List.mem_append.mp h with h | h
          swap
          · simp only [List.mem_cons, List.not_mem_nil, or_false] at h
            rcases h with h | h | h <;>
              exact absurd h.symm (errLn_ne_infoLn _ _)
          rcases List.mem_append.mp h with h | h
          · exact hpre h
          · rw [List.mem_cons] at h
            rcases h with h | h
            · exact absurd h (by decide)
            · exact hresp h
    · intro hne
      refine mem_responseLines_mem_log url params headers r _ ?_
      simp only [responseLines, List.mem_append]
      refine Or.inl (Or.inl (Or.inl (Or.inl (Or.inr ?_))))
      rw [if_pos hne]
      exact List.mem_singleton.mpr rfl

/-- Counterexample refuting C7's "note is logged exactly when a redirect
happened": the HTTP client appends the query string to the URL, so the
note is logged although the history is empty and both redirect booleans
are false. -/
theorem c7_counterexample :
    infoLn "💡 URL изменился из-за редиректа"
        ∈ okLines (explain_request demoUrl2 (some demoParams) (some demoHeaders)
            (HttpOutcome.ok respQuery)) ∧
    respQuery.history = [] ∧
    respQuery.is_redirect = false ∧
    respQuery.is_permanent_redirect = false := by
  refine ⟨?_, rfl, rfl, rfl⟩
  decide

/-- C8 (amended): when the log sink initializes, the module top level
performs the two hardcoded demonstration calls and the process exits
with status 0, regardless of any failure during either HTTP call. -/
theorem c8_exit_code (o1 o2 : HttpOutcome) :
    ∃ l1 l2,
      explain_request demoUrl1 none none o1 = Except.ok l1 ∧
      explain_request demoUrl2 (some demoParams) (some demoHeaders) o2 = Except.ok l2 ∧
      moduleMain (Except.ok ()) o1 o2
        = Except.ok (bannerLines "ПРИМЕР 1: Запрос к API с JSON ответом" ++ l1
            ++ bannerLines "ПРИМЕР 2: Запрос к Google с параметрами поиска" ++ l2) ∧
      exitCode (Except.ok ()) o1 o2 = 0 := by
  obtain ⟨l1, h1⟩ := explain_request_isOk demoUrl1 none none o1
  obtain ⟨l2, h2⟩ := explain_request_isOk demoUrl2 (some demoParams) (some demoHeaders) o2
  refine ⟨l1, l2, h1, h2, ?_, ?_⟩
  · rw [moduleMain, h1, h2]
  · rw [exitCode, moduleMain, h1, h2]

/-- Counterexample refuting C8's coverage of startup failures: an
unguarded log-sink initialization failure (e.g. the `logs/` directory
missing) propagates out of the module top level and yields a nonzero
exit status. -/
theorem c8_counterexample :
    exitCode (Except.error "FileNotFoundError: logs/logs.txt")
        (HttpOutcome.ok respOkJson) (HttpOutcome.ok respQuery) ≠ 0 := by
  decide

end ForSancho
